import Mathlib

set_option maxRecDepth 8192

/-! Shallow embedding of the credential/authentication subsystem of the
school-directory backend: the mongoose `User` model (email setters, schema
validators, the password-strength pre-save hook with bcrypt hashing, and the
`comparePassword` method), the `/api/auth/signup` and `/api/auth/login` route
handlers, and the JWT-based `authenticateToken` middleware from `server.js`.
Third-party primitives (bcryptjs, jsonwebtoken, mongoose setter/validator
machinery) are embedded following their documented behaviour, since their
code is not part of this repository. -/

/-! Section: JavaScript string primitives used by the schema setters. -/

/-- Whitespace characters recognised by JavaScript string trimming
(ASCII subset, which covers the email-shaped inputs of this system). -/
def isSpaceChar (c : Char) : Bool :=
  c == ' ' || c == '\t' || c == '\n' || c == '\r'

/-- JavaScript trim, as performed by the mongoose trim setter on a path
declared with trim true: drops leading and trailing whitespace. -/
def jsTrim (s : String) : String :=
  ⟨((s.data.dropWhile isSpaceChar).reverse.dropWhile isSpaceChar).reverse⟩

/-- ASCII lowercasing of one character, as JavaScript toLowerCase acts on
ASCII input. -/
def lowerChar (c : Char) : Char :=
  if 'A' ≤ c ∧ c ≤ 'Z' then Char.ofNat (c.toNat + 32) else c

/-- JavaScript toLowerCase (ASCII), the mongoose lowercase setter. -/
def jsToLower (s : String) : String :=
  ⟨s.data.map lowerChar⟩

/-- Combined setters of the email path (trim true, lowercase true): applied by
mongoose when the field is assigned on a document and — under Mongoose 6, which
always runs schema setters on query filter values — to the value given to
User.findOne as well. -/
def emailSetter (s : String) : String :=
  jsToLower (jsTrim s)

/-- JavaScript Array.join with a single-space separator, used for the error
message lists. -/
def joinSp : List String → String
  | [] => ""
  | [m] => m
  | m :: ms => m ++ " " ++ joinSp ms

/-! Section: bcryptjs.

The repository delegates hashing to the third-party bcryptjs package, so the
embedding follows that library's documented behaviour: the hash string is 60
characters long; `compare(s, hash)` resolves to false outright when the stored
hash is not exactly 60 characters long, and when it is, re-hashes the
candidate with the leading salt substring of the stored hash — which rejects
(an error, observed as a thrown exception by await) if that substring is not a
well-formed bcrypt salt; and bcrypt reads only the first 72 bytes of its
input, silently ignoring the rest.  A string in stored-hash position is
classified below by which of these code paths it takes; the digest of a
well-formed hash is kept abstractly as the truncated input itself, an
idealised collision-free model of the bcrypt one-way function. -/

/-- Classification of a string in the stored-hash position by how bcryptjs
treats it: a well-formed 60-character hash determined by cost, salt and the
digest key; a string whose length is not 60; or a 60-character string whose
salt section does not parse. -/
inductive StoredHash where
  | wellFormed (cost : Nat) (salt : Nat) (key : String)
  | badLength (raw : String)
  | badSalt (raw : String)
deriving DecidableEq

/-- Truncation of the input to its first 72 bytes (characters, for the ASCII
inputs modelled here), as bcrypt performs before hashing. -/
def bcryptTruncate (s : String) : String :=
  ⟨s.data.take 72⟩

/-- bcryptjs hash of a secret at a given cost with the fresh salt the library
draws for the call (passed explicitly here): a well-formed hash binding cost,
salt and the digest of the truncated input. -/
def bcryptHash (cost : Nat) (salt : Nat) (s : String) : StoredHash :=
  .wellFormed cost salt (bcryptTruncate s)

/-- bcryptjs compare of a candidate against a stored hash; `.ok` models the
promise resolving with a boolean, `.error` models it rejecting. -/
def bcryptCompare (candidate : String) (stored : StoredHash) : Except String Bool :=
  match stored with
  | .badLength _ => .ok false
  | .badSalt _ => .error "Invalid salt version"
  | .wellFormed _ _ key => .ok (bcryptTruncate candidate == key)

instance {ε α : Type} [DecidableEq ε] [DecidableEq α] : DecidableEq (Except ε α) :=
  fun a b =>
  match a, b with
  | .ok x, .ok y =>
    if h : x = y then isTrue (by rw [h]) else isFalse (by simp [h])
  | .error x, .error y =>
    if h : x = y then isTrue (by rw [h]) else isFalse (by simp [h])
  | .ok _, .error _ => isFalse (by simp)
  | .error _, .ok _ => isFalse (by simp)

/-! Section: the User model (models/User.js). -/

/-- Persisted user document, after setters and password hashing. -/
structure UserDoc where
  id : Nat
  name : String
  email : String
  password : StoredHash
  role : String
deriving DecidableEq

/-- Method userSchema.methods.comparePassword: forwards to bcryptjs compare on
the stored password field; a library error is re-thrown. -/
def comparePassword (user : UserDoc) (candidatePassword : String) : Except String Bool :=
  bcryptCompare candidatePassword user.password

/-- Message pushed by the pre-save hook when the password is shorter than 8. -/
def lenMsg : String := "Must be at least 8 characters."

/-- Message pushed by the pre-save hook when no uppercase letter occurs. -/
def upperMsg : String := "Must contain at least one uppercase letter (A-Z)."

/-- Message pushed by the pre-save hook when no lowercase letter occurs. -/
def lowerMsg : String := "Must contain at least one lowercase letter (a-z)."

/-- Message pushed by the pre-save hook when no digit occurs. -/
def digitMsg : String := "Must contain at least one number (0-9)."

/-- Message pushed by the pre-save hook when no special character occurs. -/
def specialMsg : String := "Must contain at least one special character (e.g., !@#$%^&*)."

/-- Test of the regular expression [A-Z] on the password. -/
def hasUpper (s : String) : Bool :=
  s.data.any fun c => 'A' ≤ c && c ≤ 'Z'

/-- Test of the regular expression [a-z] on the password. -/
def hasLower (s : String) : Bool :=
  s.data.any fun c => 'a' ≤ c && c ≤ 'z'

/-- Test of the digit class regular expression on the password. -/
def hasDigit (s : String) : Bool :=
  s.data.any fun c => '0' ≤ c && c ≤ '9'

/-- ASCII alphanumeric character test. -/
def isAlnumChar (c : Char) : Bool :=
  ('A' ≤ c && c ≤ 'Z') || ('a' ≤ c && c ≤ 'z') || ('0' ≤ c && c ≤ '9')

/-- Test of the negated character class (any non-alphanumeric character). -/
def hasSpecial (s : String) : Bool :=
  s.data.any fun c => !(isAlnumChar c)

/-- Violation messages collected by the pre-save hook of models/User.js, in
push order: length, uppercase, lowercase, digit, special.  The hook has no
upper length bound; the 128-character cap lives in the schema maxlength
validator instead. -/
def strengthViolations (p : String) : List String :=
  (if p.length < 8 then [lenMsg] else []) ++
  (if hasUpper p = false then [upperMsg] else []) ++
  (if hasLower p = false then [lowerMsg] else []) ++
  (if hasDigit p = false then [digitMsg] else []) ++
  (if hasSpecial p = false then [specialMsg] else [])

/-- Custom minlength message of the password path. -/
def pwMinMsg : String := "Password must be at least 8 characters long."

/-- Custom maxlength message of the password path. -/
def pwMaxMsg : String := "Password cannot exceed 128 characters."

/-- Custom match-validator message of the email path. -/
def emailMatchMsg : String := "Please enter a valid email address."

/-- Default mongoose required message for the name path. -/
def nameRequiredMsg : String := "Path \x60name\x60 is required."

/-- Default mongoose required message for the email path. -/
def emailRequiredMsg : String := "Path \x60email\x60 is required."

/-- Default mongoose required message for the password path. -/
def pwRequiredMsg : String := "Path \x60password\x60 is required."

/-- Default mongoose enum message for the role path. -/
def roleEnumMsg (v : String) : String :=
  "\x60" ++ v ++ "\x60 is not a valid enum value for path \x60role\x60."

/-- Model of the email regular expression of models/User.js (start, one or
more non-space, at-sign, one or more non-space, dot, one or more non-space,
end): there is a non-space string with an at-sign at some position i of at
least 1 and a dot at some later position j leaving at least one character on
each side. -/
def emailMatches (s : String) : Bool :=
  let cs := s.data
  let n := cs.length
  (cs.all fun c => !(isSpaceChar c)) &&
  ((List.range n).any fun i =>
    decide (1 ≤ i) && (cs.getD i ' ' == '@') &&
      ((List.range n).any fun j =>
        decide (i + 2 ≤ j) && decide (j + 2 ≤ n) && (cs.getD j ' ' == '.')))

/-- Built-in mongoose validation, run by save before any user pre-save hook:
per path the first failing validator contributes its message, paths in schema
order (name, email, password, role); setters have already been applied to the
values. -/
def schemaValidationErrors (name email password role : String) : List String :=
  (if name = "" then [nameRequiredMsg] else []) ++
  (if email = "" then [emailRequiredMsg]
   else if emailMatches email = false then [emailMatchMsg] else []) ++
  (if password = "" then [pwRequiredMsg]
   else if password.length < 8 then [pwMinMsg]
   else if 128 < password.length then [pwMaxMsg] else []) ++
  (if role = "student" ∨ role = "admin" then [] else [roleEnumMsg role])

/-- Errors that can abort a save: a mongoose ValidationError carrying the path
messages, or the custom weak-password Error of the pre-save hook carrying its
message and the statusCode field the hook sets to 400. -/
inductive SaveError where
  | validation (messages : List String)
  | weak (message : String) (statusCode : Nat)
deriving DecidableEq

/-- Model of constructing a User document and calling save on it: mongoose
applies the path setters, runs the schema validators, then the pre-save hook —
which collects the strength violations and, when there are none, replaces the
password with its bcrypt hash at cost 12 using the fresh salt given here. -/
def userSave (id salt : Nat) (rawName rawEmail password role : String) :
    Except SaveError UserDoc :=
  let name := jsTrim rawName
  let email := emailSetter rawEmail
  let verrs := schemaValidationErrors name email password role
  if verrs ≠ [] then .error (.validation verrs)
  else
    let viols := strengthViolations password
    if viols ≠ [] then
      .error (.weak ("Password is too weak. " ++ joinSp viols) 400)
    else .ok ⟨id, name, email, bcryptHash 12 salt password, role⟩

/-! Section: jsonwebtoken. -/

/-- Seconds denoted by the expiresIn option value of seven days. -/
def sevenDays : Nat := 604800

/-- Decoded JWT payload: the signed id claim plus the iat and exp claims the
library adds (times in seconds). -/
structure TokenPayload where
  id : Nat
  iat : Nat
  exp : Nat
deriving DecidableEq

/-- Signed token; the signature is an idealised unforgeable MAC, recorded as
the signing key together with the exact payload it covers. -/
structure SignedToken where
  payload : TokenPayload
  sigKey : String
  sigPayload : TokenPayload
deriving DecidableEq

/-- jwt.sign of the object holding the user id, with the process JWT secret
and expiresIn seven days, called at time now: iat is now and exp is now plus
seven days. -/
def jwtSign (key : String) (id : Nat) (now : Nat) : SignedToken :=
  ⟨⟨id, now, now + sevenDays⟩, key, ⟨id, now, now + sevenDays⟩⟩

/-- Failures of jwt.verify: a signature or structure problem, or expiry. -/
inductive JwtError where
  | invalidToken
  | expiredToken
deriving DecidableEq

/-- jwt.verify with the same secret at time now: the signature is checked
first (invalid token on mismatch), then the exp claim — expired exactly when
now has reached exp. -/
def jwtVerify (key : String) (t : SignedToken) (now : Nat) : Except JwtError TokenPayload :=
  if t.sigKey = key ∧ t.sigPayload = t.payload then
    if t.payload.exp ≤ now then .error .expiredToken else .ok t.payload
  else .error .invalidToken

/-! Section: route handlers (routes/auth.js) and middleware (server.js). -/

/-- Body of a JSON response produced by the handlers. -/
inductive ResponseBody where
  | msg (m : String)
  | err (m : String)
  | auth (token : SignedToken) (id : Nat) (name : String) (email : String)
deriving DecidableEq

/-- HTTP response: status code and JSON body. -/
structure HttpResponse where
  status : Nat
  body : ResponseBody
deriving DecidableEq

/-- User.findOne on the email field: Mongoose 6 runs the email path setters on
the query filter value, and every stored email was normalised by the same
setters when its document was saved. -/
def findOneByEmail (db : List UserDoc) (email : String) : Option UserDoc :=
  db.find? fun u => u.email == emailSetter email

/-- POST /api/auth/login handler: field presence check, directory lookup,
password comparison, then token issuance; a thrown comparison error lands in
the catch block and yields the 500 response. -/
def login (db : List UserDoc) (key : String) (now : Nat) (email password : String) :
    HttpResponse :=
  if email = "" ∨ password = "" then ⟨400, .msg "Please enter all fields"⟩
  else
    match findOneByEmail db email with
    | none => ⟨400, .msg "Invalid credentials"⟩
    | some user =>
      match comparePassword user password with
      | .error _ => ⟨500, .err "Server error during login"⟩
      | .ok false => ⟨400, .msg "Invalid credentials"⟩
      | .ok true => ⟨200, .auth (jwtSign key user.id now) user.id user.name user.email⟩

/-- Request body of POST /api/auth/signup; the role field models an arbitrary
extra field a client may send — the handler never reads it. -/
structure SignupBody where
  name : String
  email : String
  password : String
  role : String
deriving DecidableEq

/-- POST /api/auth/signup handler; nextId is the id the directory assigns to
the new document and salt the fresh salt bcrypt draws.  The user is
constructed from the name, email and password fields only, so the schema
default student applies to role.  Returns the response together with the
directory contents after the call. -/
def signup (db : List UserDoc) (key : String) (now salt nextId : Nat)
    (body : SignupBody) : HttpResponse × List UserDoc :=
  if body.name = "" ∨ body.email = "" ∨ body.password = "" then
    (⟨400, .msg "Please enter all fields"⟩, db)
  else
    match findOneByEmail db body.email with
    | some _ => (⟨400, .msg "User already exists with this email"⟩, db)
    | none =>
      match userSave nextId salt body.name body.email body.password "student" with
      | .error (.validation msgs) => (⟨400, .msg (joinSp msgs)⟩, db)
      | .error (.weak m code) =>
        if code = 400 then (⟨400, .msg m⟩, db)
        else (⟨500, .err "Server error during signup"⟩, db)
      | .ok u => (⟨201, .auth (jwtSign key u.id now) u.id u.name u.email⟩, db ++ [u])

/-- State of the Authorization header as the middleware sees it: absent,
present without an extractable bearer token, or carrying a token. -/
inductive AuthHeader where
  | absent
  | malformed
  | bearer (tok : SignedToken)
deriving DecidableEq

/-- Outcome of the authenticateToken middleware. -/
inductive AuthResult where
  | unauthorized
  | forbidden
  | authed (user : TokenPayload)
deriving DecidableEq

/-- Middleware authenticateToken of server.js: 401 when no token can be
extracted from the Authorization header, 403 when jwt.verify reports any
error, and otherwise the decoded payload is attached as the request user. -/
def authenticateToken (key : String) (now : Nat) (h : AuthHeader) : AuthResult :=
  match h with
  | .absent => .unauthorized
  | .malformed => .unauthorized
  | .bearer tok =>
    match jwtVerify key tok now with
    | .error _ => .forbidden
    | .ok payload => .authed payload

/-! Section: claim theorems. -/

/-- Claim C1: a login that fails because the email is unknown and a login that
fails because the candidate password does not verify against the stored hash
return the same status 400 and the identical generic body, the message
"Invalid credentials", so the two failure causes are indistinguishable. -/
theorem C1_invalid_credentials_indistinguishable
    (db : List UserDoc) (key : String) (now : Nat) (email password : String)
    (user : UserDoc) (he : email ≠ "") (hp : password ≠ "") :
    (findOneByEmail db email = none →
      login db key now email password = ⟨400, .msg "Invalid credentials"⟩) ∧
    (findOneByEmail db email = some user →
      comparePassword user password = .ok false →
      login db key now email password = ⟨400, .msg "Invalid credentials"⟩) := by
  constructor
  · intro hf
    simp [login, hf, he, hp]
  · intro hf hc
    simp [login, hf, hc, he, hp]

/-- Directory with one stored account, used by concrete witnesses. -/
def dbOne : List UserDoc := [⟨1, "A", "a@b.com", bcryptHash 12 0 "Abcdef1!", "student"⟩]

/-- Witness for C1 at a concrete directory: a login with an unknown email and a
login with a wrong password for a stored account produce the identical
response. -/
theorem C1_invalid_credentials_witness :
    login dbOne "k" 0 "nobody@b.com" "Abcdef1!" = ⟨400, .msg "Invalid credentials"⟩ ∧
    login dbOne "k" 0 "a@b.com" "Wrongpw1!" = ⟨400, .msg "Invalid credentials"⟩ :=
  ⟨(C1_invalid_credentials_indistinguishable dbOne "k" 0 "nobody@b.com" "Abcdef1!"
      ⟨1, "A", "a@b.com", bcryptHash 12 0 "Abcdef1!", "student"⟩
      (by decide) (by decide)).1 (by decide),
   (C1_invalid_credentials_indistinguishable dbOne "k" 0 "a@b.com" "Wrongpw1!"
      ⟨1, "A", "a@b.com", bcryptHash 12 0 "Abcdef1!", "student"⟩
      (by decide) (by decide)).2 (by decide) (by decide)⟩

/-- Claim C2: the login email is trimmed and lowercased before the directory
lookup, so two nonempty spellings with the same normal form — differing only
in letter case or surrounding whitespace — find the same account and produce
the same login response. -/
theorem C2_email_lookup_normalized (db : List UserDoc) (e1 e2 : String)
    (h : emailSetter e1 = emailSetter e2) (h1 : e1 ≠ "") (h2 : e2 ≠ "") :
    findOneByEmail db e1 = findOneByEmail db e2 ∧
    ∀ key now pw, login db key now e1 pw = login db key now e2 pw := by
  have hf : findOneByEmail db e1 = findOneByEmail db e2 := by
    unfold findOneByEmail
    rw [h]
  refine ⟨hf, fun key now pw => ?_⟩
  unfold login
  rw [hf]
  by_cases hpw : pw = "" <;> simp [h1, h2, hpw]

/-- Witness for C2: a spelling with extra whitespace and capital letters finds
the same stored account as the canonical spelling and logs in identically. -/
theorem C2_email_lookup_witness :
    findOneByEmail dbOne " A@B.com " = findOneByEmail dbOne "a@b.com" ∧
    login dbOne "k" 0 " A@B.com " "Abcdef1!" = login dbOne "k" 0 "a@b.com" "Abcdef1!" :=
  ⟨(C2_email_lookup_normalized dbOne " A@B.com " "a@b.com"
      (by decide) (by decide) (by decide)).1,
   (C2_email_lookup_normalized dbOne " A@B.com " "a@b.com"
      (by decide) (by decide) (by decide)).2 "k" 0 "Abcdef1!"⟩

/-- Claim C5: verifying a token immediately after it was issued for a subject
succeeds and yields the same subject id unchanged in the attached payload. -/
theorem C5_verify_after_issue (key : String) (id now : Nat) :
    authenticateToken key now (.bearer (jwtSign key id now)) =
      .authed ⟨id, now, now + sevenDays⟩ := by
  unfold authenticateToken jwtVerify jwtSign
  simp [sevenDays]

/-- Claim C6: an issued token's exp claim is its iat claim plus seven days;
verification of the untampered token fails with the expired-token error
exactly when the current time has reached exp; and at the boundary it still
succeeds one second before exp while failing expired one second after. -/
theorem C6_token_ttl_boundary (key : String) (id t : Nat) :
    (jwtSign key id t).payload.exp = (jwtSign key id t).payload.iat + sevenDays ∧
    (∀ now, jwtVerify key (jwtSign key id t) now = .error .expiredToken ↔
      t + sevenDays ≤ now) ∧
    jwtVerify key (jwtSign key id t) (t + sevenDays - 1) = .ok ⟨id, t, t + sevenDays⟩ ∧
    jwtVerify key (jwtSign key id t) (t + sevenDays + 1) = .error .expiredToken := by
  refine ⟨rfl, ?_, ?_, ?_⟩
  · intro now
    unfold jwtVerify jwtSign
    by_cases h : t + sevenDays ≤ now <;> simp [h]
  · have h : ¬(t + sevenDays ≤ t + sevenDays - 1) := by unfold sevenDays; omega
    unfold jwtVerify jwtSign
    simp [h]
  · have h : t + sevenDays ≤ t + sevenDays + 1 := by omega
    unfold jwtVerify jwtSign
    simp [h]

/-- Witness for C6 at concrete times: a token issued at time zero verifies at
time 604799 and is expired at time 604801. -/
theorem C6_token_ttl_witness :
    jwtVerify "k" (jwtSign "k" 1 0) 604799 = .ok ⟨1, 0, 604800⟩ ∧
    jwtVerify "k" (jwtSign "k" 1 0) 604801 = .error .expiredToken :=
  ⟨(C6_token_ttl_boundary "k" 1 0).2.2.1, (C6_token_ttl_boundary "k" 1 0).2.2.2⟩

/-- Valid 72-character secret: uppercase, lowercase, digit and special in the
first four characters, padded to exactly the bcrypt input limit. -/
def pw72 : String := ⟨'A' :: 'a' :: '1' :: '!' :: List.replicate 68 'a'⟩

/-- Valid 73-character secret extending pw72 by one character, so the two
secrets differ but agree on their first 72 characters. -/
def pw73 : String := pw72 ++ "b"

/-- Claim C4 counterexample: two distinct secrets that both pass the strength
rules (and are within the 128-character schema cap) but agree on their first
72 characters verify against each other's hash, because bcrypt reads only the
first 72 bytes of its input. -/
theorem C4_counterexample :
    strengthViolations pw72 = [] ∧ strengthViolations pw73 = [] ∧
    pw72.length ≤ 128 ∧ pw73.length ≤ 128 ∧ pw73 ≠ pw72 ∧
    bcryptCompare pw73 (bcryptHash 12 0 pw72) = .ok true := by decide

/-- Claim C4 (amended): for every valid secret, verifying it against its own
hash succeeds, and verifying it against the hash of a second valid secret
fails whenever the two secrets differ within their first 72 characters —
bcrypt truncates its input to 72 bytes while validated secrets may be up to
128 characters long. -/
theorem C4_verify_roundtrip (cost salt salt2 : Nat) (s s2 : String)
    (hv : strengthViolations s = []) (hv2 : strengthViolations s2 = [])
    (hd : bcryptTruncate s ≠ bcryptTruncate s2) :
    bcryptCompare s (bcryptHash cost salt s) = .ok true ∧
    bcryptCompare s (bcryptHash cost salt2 s2) = .ok false := by
  unfold bcryptCompare bcryptHash
  constructor
  · simp
  · simp [hd]

/-- Witness for C4 at concrete secrets differing within the first 72
characters. -/
theorem C4_verify_roundtrip_witness :
    bcryptCompare "Abcdef1!" (bcryptHash 12 3 "Abcdef1!") = .ok true ∧
    bcryptCompare "Abcdef1!" (bcryptHash 12 4 "Ghijkl2?") = .ok false :=
  C4_verify_roundtrip 12 3 4 "Abcdef1!" "Ghijkl2?" (by decide) (by decide) (by decide)

/-- Claim C7 counterexample: the strength checks applied to the seven-character
input flag the uppercase rule in addition to the length rule, so the violation
list does not consist of the length rule alone. -/
theorem C7_counterexample :
    upperMsg ∈ strengthViolations "short1!" ∧
    strengthViolations "short1!" ≠ [lenMsg] := by decide

/-- Claim C7 (amended): the first example input fails exactly the length and
uppercase rules (it contains no uppercase letter); the second fails exactly
the uppercase rule; the third fails exactly the digit rule. -/
theorem C7_strength_examples :
    strengthViolations "short1!" = [lenMsg, upperMsg] ∧
    strengthViolations "alllowercase1!" = [upperMsg] ∧
    strengthViolations "NoDigits!" = [digitMsg] := by decide

/-- Sixty-character corrupt stored-hash string: the right length for a bcrypt
hash but with an unparsable salt section. -/
def raw60 : String := ⟨List.replicate 60 '+'⟩

/-- Claim C8 counterexample: a 60-character corrupt stored hash makes the
bcrypt comparison reject — the rethrown error of comparePassword — instead of
returning false as the claim states for every malformed stored hash. -/
theorem C8_counterexample :
    bcryptCompare "Abcdef1!" (StoredHash.badSalt raw60) =
      .error "Invalid salt version" := by decide

/-- Claim C8 (amended): a stored hash of the wrong length makes verify return
false without an error, but a 60-character corrupt stored hash makes it
reject; and every internal verify failure during login surfaces as the
generic 500 server error, never as the "Invalid credentials" response. -/
theorem C8_malformed_hash_handling
    (rawNot60 rawCorrupt candidate : String) (db : List UserDoc) (key : String)
    (now : Nat) (email password e : String) (user : UserDoc)
    (he : email ≠ "") (hp : password ≠ "")
    (hf : findOneByEmail db email = some user)
    (herr : comparePassword user password = .error e) :
    bcryptCompare candidate (.badLength rawNot60) = .ok false ∧
    bcryptCompare candidate (.badSalt rawCorrupt) = .error "Invalid salt version" ∧
    login db key now email password = ⟨500, .err "Server error during login"⟩ := by
  refine ⟨rfl, rfl, ?_⟩
  simp [login, hf, herr, he, hp]

/-- Directory whose one account has the corrupt 60-character stored hash. -/
def dbCorrupt : List UserDoc := [⟨1, "A", "a@b.com", .badSalt raw60, "student"⟩]

/-- Witness for C8 at concrete inputs: a three-character stored hash compares
false, the corrupt 60-character hash rejects, and logging in against it
produces the 500 server error. -/
theorem C8_malformed_hash_witness :
    bcryptCompare "Abcdef1!" (.badLength "+++") = .ok false ∧
    bcryptCompare "Abcdef1!" (.badSalt raw60) = .error "Invalid salt version" ∧
    login dbCorrupt "k" 0 "a@b.com" "Abcdef1!" = ⟨500, .err "Server error during login"⟩ :=
  C8_malformed_hash_handling "+++" raw60 "Abcdef1!" dbCorrupt "k" 0 "a@b.com" "Abcdef1!"
    "Invalid salt version" ⟨1, "A", "a@b.com", .badSalt raw60, "student"⟩
    (by decide) (by decide) (by decide) (by decide)

/-- Claim C9: hashing the same valid secret in two separate invocations — with
the fresh salts the library draws each time — yields different stored hashes,
yet the secret verifies against both. -/
theorem C9_fresh_salt_nondeterminism (cost salt1 salt2 : Nat) (s : String)
    (hv : strengthViolations s = []) (hs : salt1 ≠ salt2) :
    bcryptHash cost salt1 s ≠ bcryptHash cost salt2 s ∧
    bcryptCompare s (bcryptHash cost salt1 s) = .ok true ∧
    bcryptCompare s (bcryptHash cost salt2 s) = .ok true := by
  refine ⟨?_, by simp [bcryptCompare, bcryptHash], by simp [bcryptCompare, bcryptHash]⟩
  intro hcontra
  rw [bcryptHash, bcryptHash] at hcontra
  exact hs (StoredHash.wellFormed.inj hcontra).2.1

/-- Witness for C9 at a concrete secret and two concrete salts. -/
theorem C9_fresh_salt_witness :
    bcryptHash 12 0 "Abcdef1!" ≠ bcryptHash 12 1 "Abcdef1!" ∧
    bcryptCompare "Abcdef1!" (bcryptHash 12 0 "Abcdef1!") = .ok true ∧
    bcryptCompare "Abcdef1!" (bcryptHash 12 1 "Abcdef1!") = .ok true :=
  C9_fresh_salt_nondeterminism 12 0 1 "Abcdef1!" (by decide) (by decide)

/-- Characterisation of membership in the collected strength violations: a
message occurs exactly when it is one of the five rule messages and its rule
fails; shared helper for the strength-rule claims. -/
theorem mem_strengthViolations (p m : String) :
    m ∈ strengthViolations p ↔
      (p.length < 8 ∧ m = lenMsg) ∨ (hasUpper p = false ∧ m = upperMsg) ∨
      (hasLower p = false ∧ m = lowerMsg) ∨ (hasDigit p = false ∧ m = digitMsg) ∨
      (hasSpecial p = false ∧ m = specialMsg) := by
  unfold strengthViolations
  by_cases h1 : p.length < 8 <;> by_cases h2 : hasUpper p = false <;>
    by_cases h3 : hasLower p = false <;> by_cases h4 : hasDigit p = false <;>
    by_cases h5 : hasSpecial p = false <;> simp [h1, h2, h3, h4, h5]

/-- Claim C3 (amended): the pre-save hook checks five rules — minimum length
8, uppercase, lowercase, digit, special — independently and collects exactly
the violated ones, and when any of them fails (on a document that passed
schema validation) the save fails with a single status-400 error whose
message joins exactly those violated rules' messages; the 128-character cap
is not among the hook's rules: it is enforced by the schema maxlength
validator, which runs before the hook and reports only its own message. -/
theorem C3_strength_rule_collection (p nm em : String) (id salt : Nat) :
    (lenMsg ∈ strengthViolations p ↔ p.length < 8) ∧
    (upperMsg ∈ strengthViolations p ↔ hasUpper p = false) ∧
    (lowerMsg ∈ strengthViolations p ↔ hasLower p = false) ∧
    (digitMsg ∈ strengthViolations p ↔ hasDigit p = false) ∧
    (specialMsg ∈ strengthViolations p ↔ hasSpecial p = false) ∧
    pwMaxMsg ∉ strengthViolations p ∧
    (jsTrim nm ≠ "" → emailMatches (emailSetter em) = true →
      8 ≤ p.length → p.length ≤ 128 → strengthViolations p ≠ [] →
      userSave id salt nm em p "student" =
        .error (.weak ("Password is too weak. " ++ joinSp (strengthViolations p)) 400)) ∧
    (jsTrim nm ≠ "" → emailMatches (emailSetter em) = true → 128 < p.length →
      userSave id salt nm em p "student" = .error (.validation [pwMaxMsg])) := by
  refine ⟨?_, ?_, ?_, ?_, ?_, ?_, ?_, ?_⟩
  · rw [mem_strengthViolations]
    constructor
    · rintro (⟨h, _⟩ | ⟨_, h⟩ | ⟨_, h⟩ | ⟨_, h⟩ | ⟨_, h⟩)
      · exact h
      all_goals exact absurd h (by decide)
    · exact fun h => Or.inl ⟨h, rfl⟩
  · rw [mem_strengthViolations]
    constructor
    · rintro (⟨_, h⟩ | ⟨h, _⟩ | ⟨_, h⟩ | ⟨_, h⟩ | ⟨_, h⟩)
      · exact absurd h (by decide)
      · exact h
      all_goals exact absurd h (by decide)
    · exact fun h => Or.inr (Or.inl ⟨h, rfl⟩)
  · rw [mem_strengthViolations]
    constructor
    · rintro (⟨_, h⟩ | ⟨_, h⟩ | ⟨h, _⟩ | ⟨_, h⟩ | ⟨_, h⟩)
      · exact absurd h (by decide)
      · exact absurd h (by decide)
      · exact h
      all_goals exact absurd h (by decide)
    · exact fun h => Or.inr (Or.inr (Or.inl ⟨h, rfl⟩))
  · rw [mem_strengthViolations]
    constructor
    · rintro (⟨_, h⟩ | ⟨_, h⟩ | ⟨_, h⟩ | ⟨h, _⟩ | ⟨_, h⟩)
      · exact absurd h (by decide)
      · exact absurd h (by decide)
      · exact absurd h (by decide)
      · exact h
      · exact absurd h (by decide)
    · exact fun h => Or.inr (Or.inr (Or.inr (Or.inl ⟨h, rfl⟩)))
  · rw [mem_strengthViolations]
    constructor
    · rintro (⟨_, h⟩ | ⟨_, h⟩ | ⟨_, h⟩ | ⟨_, h⟩ | ⟨h, _⟩)
      · exact absurd h (by decide)
      · exact absurd h (by decide)
      · exact absurd h (by decide)
      · exact absurd h (by decide)
      · exact h
    · exact fun h => Or.inr (Or.inr (Or.inr (Or.inr ⟨h, rfl⟩)))
  · rw [mem_strengthViolations]
    rintro (⟨_, h⟩ | ⟨_, h⟩ | ⟨_, h⟩ | ⟨_, h⟩ | ⟨_, h⟩) <;> exact absurd h (by decide)
  · intro hn hm h8 h128 hv
    have hp0 : p ≠ "" := by
      intro h
      rw [h] at h8
      exact absurd h8 (by decide)
    have hne : emailSetter em ≠ "" := by
      intro h
      rw [h] at hm
      exact absurd hm (by decide)
    have hlt : ¬(p.length < 8) := by omega
    have hgt : ¬(128 < p.length) := by omega
    have hverrs : schemaValidationErrors (jsTrim nm) (emailSetter em) p "student" = [] := by
      unfold schemaValidationErrors
      simp [hn, hne, hm, hp0, hlt, hgt]
    simp [userSave, hverrs, hv]
  · intro hn hm hgt
    have hp0 : p ≠ "" := by
      intro h
      rw [h] at hgt
      exact absurd hgt (by decide)
    have hne : emailSetter em ≠ "" := by
      intro h
      rw [h] at hm
      exact absurd hm (by decide)
    have hlt : ¬(p.length < 8) := by omega
    have hverrs : schemaValidationErrors (jsTrim nm) (emailSetter em) p "student" =
        [pwMaxMsg] := by
      unfold schemaValidationErrors
      simp [hn, hne, hm, hp0, hlt, hgt]
    simp [userSave, hverrs]

/-- One hundred twenty-nine lowercase letters: over the schema cap and also
violating the uppercase, digit and special rules. -/
def pw129 : String := ⟨List.replicate 129 'a'⟩

/-- Claim C3 counterexample: for a 129-character all-lowercase password the
save fails with only the schema maxlength message, although the uppercase,
digit and special rules are also violated — the single failure does not carry
the joined messages of all violated rules, and the strength hook itself never
flags the 128-character bound. -/
theorem C3_counterexample :
    hasUpper pw129 = false ∧ hasDigit pw129 = false ∧ hasSpecial pw129 = false ∧
    userSave 1 0 "A" "a@b.com" pw129 "student" = .error (.validation [pwMaxMsg]) ∧
    upperMsg ∉ [pwMaxMsg] := by decide

/-- Witness for C3 at concrete inputs: a password violating only the
uppercase rule fails the save with the status-400 weak-password error joining
exactly that rule's message, and the over-long password fails with the schema
maxlength message alone. -/
theorem C3_strength_rule_witness :
    userSave 1 0 "A" "a@b.com" "alllowercase1!" "student" =
      .error (.weak ("Password is too weak. " ++ joinSp (strengthViolations "alllowercase1!")) 400) ∧
    userSave 1 0 "A" "a@b.com" pw129 "student" = .error (.validation [pwMaxMsg]) :=
  ⟨(C3_strength_rule_collection "alllowercase1!" "A" "a@b.com" 1 0).2.2.2.2.2.2.1
      (by decide) (by decide) (by decide) (by decide) (by decide),
   (C3_strength_rule_collection pw129 "A" "a@b.com" 1 0).2.2.2.2.2.2.2
      (by decide) (by decide) (by decide)⟩

/-- Helper: a successful save stores the role value the document was
constructed with. -/
theorem userSave_role (id salt : Nat) (nm em p r : String) (u : UserDoc)
    (h : userSave id salt nm em p r = .ok u) : u.role = r := by
  simp only [userSave] at h
  split at h
  · exact absurd h (by simp)
  · split at h
    · exact absurd h (by simp)
    · rw [Except.ok.injEq] at h
      rw [← h]

/-- Claim C10: every account the signup handler adds to the directory has
role student — the handler constructs the new user from the name, email and
password fields only, so a role value in the request body is ignored and the
schema default applies. -/
theorem C10_signup_role_student (db : List UserDoc) (key : String)
    (now salt nextId : Nat) (body : SignupBody) (u : UserDoc)
    (hnew : u ∉ db) (hmem : u ∈ (signup db key now salt nextId body).2) :
    u.role = "student" := by
  unfold signup at hmem
  split at hmem
  · exact absurd hmem hnew
  · split at hmem
    · exact absurd hmem hnew
    · split at hmem
      · exact absurd hmem hnew
      · split at hmem
        · exact absurd hmem hnew
        · exact absurd hmem hnew
      · rename_i w hsave
        simp only [List.mem_append, List.mem_singleton] at hmem
        rcases hmem with h | h
        · exact absurd h hnew
        · rw [h]
          exact userSave_role nextId salt body.name body.email body.password "student" w hsave

/-- Signup request body that attempts to register with role admin. -/
def adminBody : SignupBody := ⟨"A", "a@b.com", "Abcdef1!", "admin"⟩

/-- Witness for C10: the account stored by a signup whose body carried role
admin nevertheless has role student. -/
theorem C10_signup_role_witness :
    (⟨1, "A", "a@b.com", bcryptHash 12 0 "Abcdef1!", "student"⟩ : UserDoc).role =
      "student" :=
  C10_signup_role_student [] "k" 0 0 1 adminBody
    ⟨1, "A", "a@b.com", bcryptHash 12 0 "Abcdef1!", "student"⟩
    (by decide) (by decide)
